import Mathlib

/-!
Verification development for the Taiwan real-time AQI monitoring script
(`main.py`).  The program is a linear ETL pipeline: fetch JSON from the
MOENV API, normalize/enrich the records with station coordinates and a
distance-to-Taipei-Station metric, classify AQI values into three bands,
render a map with one circular marker per station, and persist an HTML
map plus a CSV table.

Shallow-embedding conventions:
* Python floats are modelled as `ℚ` (all comparisons in the program are
  order comparisons against integer thresholds, and all arithmetic is
  exact in the model).
* Python exceptions are modelled with `Except PyErr`; a function that
  can only return normally has a plain codomain.
* `pandas.to_numeric` and `geopy.distance.geodesic` are third-party
  library calls; they are modelled by explicit parameters
  (`ParseFn` for the numeric-string grammar, `GeoFn` for the geodesic
  computation) so that no unverifiable library behaviour is baked in.
  The `errors='coerce'` control flow of `to_numeric` itself is modelled
  explicitly (`to_numeric` below).
* Raw API records are JSON objects whose allow-listed field values are
  JSON scalars (string / number / boolean / null) or absent — the shape
  the MOENV API delivers.  Inputs outside this modelled domain (e.g. a
  record whose `aqi` field is itself a JSON array) are mapped to the
  distinguished error `PyErr.unmodeled` and no theorem below relies on
  them.
-/

namespace AQIMonitor

/-- A parsed JSON value, as produced by `response.json()`. -/
inductive Json where
  | null : Json
  | bool (b : Bool) : Json
  | num (q : ℚ) : Json
  | str (s : String) : Json
  | arr (xs : List Json) : Json
  | obj (fields : List (String × Json)) : Json

/-- A scalar JSON value: the modelled domain of raw-record field values. -/
inductive Scalar where
  | null : Scalar
  | bool (b : Bool) : Scalar
  | num (q : ℚ) : Scalar
  | str (s : String) : Scalar
deriving DecidableEq

/-- Python truthiness of a JSON value (`if not self.data`). -/
def jFalsy : Json → Bool
  | .null => true
  | .bool b => !b
  | .num q => q == 0
  | .str s => s == ""
  | .arr xs => xs.isEmpty
  | .obj fs => fs.isEmpty

/-- First binding of a key in a JSON object (Python dict lookup). -/
def fieldOf (fs : List (String × Json)) (k : String) : Option Json :=
  (fs.find? (fun p => p.1 == k)).map (fun p => p.2)

/-- Source `main.py` line 40: `self.taipei_station = [25.0478, 121.5170]`. -/
def taipei_station : ℚ × ℚ := (25.0478, 121.5170)

/-- Source `main.py` lines 43-99: the static station-name → coordinate table. -/
def station_coordinates : List (String × ℚ × ℚ) :=
  [("汐止", 25.0645, 121.6321), ("中山", 25.0645, 121.5241),
   ("大安", 25.0263, 121.5438), ("古亭", 25.0128, 121.5274),
   ("松山", 25.0477, 121.5750), ("士林", 25.0877, 121.5240),
   ("大同", 25.0645, 121.5178), ("內湖", 25.0698, 121.5808),
   ("南港", 25.0548, 121.6069), ("文山", 24.9876, 121.5718),
   ("板橋", 25.0167, 121.4624), ("新莊", 25.0358, 121.4497),
   ("土城", 24.9791, 121.4599), ("蘆洲", 25.0848, 121.4660),
   ("三重", 25.0829, 121.4914), ("淡水", 25.1646, 121.4459),
   ("林口", 25.0789, 121.3198), ("桃園", 24.9936, 121.3010),
   ("中壢", 24.9539, 121.2256), ("平鎮", 24.9446, 121.2188),
   ("龍潭", 24.8626, 121.2299), ("新竹", 24.8138, 120.9675),
   ("竹東", 24.7446, 121.0865), ("苗栗", 24.5629, 120.8214),
   ("頭份", 24.6876, 120.8806), ("台中", 24.1477, 120.6736),
   ("沙鹿", 24.2332, 120.5654), ("豐原", 24.2525, 120.7176),
   ("大里", 24.0995, 120.6788), ("彰化", 24.0766, 120.5422),
   ("員林", 23.9623, 120.5744), ("南投", 23.9099, 120.6838),
   ("雲林", 23.7090, 120.4316), ("斗六", 23.7089, 120.4316),
   ("嘉義", 23.4801, 120.4491), ("朴子", 23.4619, 120.2479),
   ("台南", 22.9999, 120.2269), ("新營", 23.3005, 120.3169),
   ("善化", 23.1327, 120.2995), ("高雄", 22.6273, 120.3014),
   ("林園", 22.5019, 120.3943), ("大寮", 22.5598, 120.3543),
   ("鳳山", 22.6287, 120.3566), ("左營", 22.6900, 120.2982),
   ("楠梓", 22.7287, 120.3014), ("小港", 22.5667, 120.3512),
   ("屏東", 22.6828, 120.4908), ("恆春", 22.0011, 120.7460),
   ("宜蘭", 24.6929, 121.7355), ("羅東", 24.6770, 121.7707),
   ("花蓮", 23.9979, 121.6070), ("台東", 22.7560, 121.1606),
   ("馬祖", 26.1634, 119.9518), ("金門", 24.4368, 118.3168),
   ("澎湖", 23.5697, 119.5802)]

/-- Source `main.py` lines 199-206, `get_aqi_color`: AQI value → marker color. -/
def get_aqi_color (aqi_value : ℚ) : String :=
  if aqi_value ≤ 50 then "#00E400"
  else if aqi_value ≤ 100 then "#FFFF00"
  else "#FF0000"

/-- Source `main.py` lines 208-215, `get_aqi_level`: AQI value → label. -/
def get_aqi_level (aqi_value : ℚ) : String :=
  if aqi_value ≤ 50 then "良好"
  else if aqi_value ≤ 100 then "中等"
  else "不健康"

/-- The three severity bands of the classifier. -/
inductive AQIBandT where
  | good : AQIBandT
  | moderate : AQIBandT
  | unhealthy : AQIBandT
deriving DecidableEq

/-- The band an AQI value falls in, read off from the color the source
classifier assigns to it (so the band is derived from the code, not
restated from the spec). -/
def bandOf (v : ℚ) : AQIBandT :=
  if get_aqi_color v = "#00E400" then .good
  else if get_aqi_color v = "#FFFF00" then .moderate
  else .unhealthy

/-- Severity rank of a band, used to state monotonicity. -/
def bandIdx : AQIBandT → ℕ
  | .good => 0
  | .moderate => 1
  | .unhealthy => 2

/-- Oracle for `geopy.distance.geodesic(a, b).kilometers`: either a
kilometre distance or a raised exception (e.g. `ValueError` on an
out-of-range latitude). -/
def GeoFn : Type := (ℚ × ℚ) → (ℚ × ℚ) → Except String ℚ

/-- Python `round` to an integer: round-half-to-even. -/
def roundHalfEven (x : ℚ) : ℤ :=
  let f := ⌊x⌋
  let r := x - (f : ℚ)
  if r < 1/2 then f
  else if 1/2 < r then f + 1
  else if f % 2 = 0 then f else f + 1

/-- Python `round(x, 2)`. -/
def pyRound2 (x : ℚ) : ℚ := (roundHalfEven (x * 100) : ℚ) / 100

/-- Source `main.py` lines 189-197, `calculate_distance_to_taipei`: wraps the
geodesic computation in `try/except`, returning the rounded distance on
success and `None` on any raised exception. -/
def calculate_distance_to_taipei (g : GeoFn) (lat lon : ℚ) : Option ℚ :=
  match g (lat, lon) taipei_station with
  | .ok d => some (pyRound2 d)
  | .error _ => none

/-- Exceptions that the modelled pipeline can raise (leave a function
without being caught).  `osError` is a filesystem failure of
`os.makedirs` (which sits outside the persisters' `try` blocks).
`unmodeled` marks inputs outside the modelled domain (see the header
comment); no theorem relies on such inputs. -/
inductive PyErr where
  | keyError : PyErr
  | typeError : PyErr
  | osError : PyErr
  | unmodeled : PyErr
deriving DecidableEq

/-- Oracle for the numeric-string grammar of `pandas.to_numeric`:
`some q` when the string parses as the number `q`, `none` otherwise. -/
def ParseFn : Type := String → Option ℚ

/-- The `errors=` mode of `pandas.to_numeric`. -/
inductive NumErrMode where
  | raiseE : NumErrMode
  | coerceE : NumErrMode

/-- A raw-record cell: `none` = key absent from the record (a `NaN` in
the DataFrame column), `some v` = key present with scalar value `v`. -/
abbrev Cell : Type := Option Scalar

/-- Collapse a present JSON `null` to an absent cell: in the DataFrame
both appear as a missing value. -/
def cellOf (c : Cell) : Cell :=
  match c with
  | some .null => none
  | x => x

/-- Model of `pandas.to_numeric` on one scalar cell (`main.py` line 171 applies
it column-wise; per-cell semantics are identical).  With
`errors='coerce'` an unparseable string becomes `NaN` (`none`); with
`errors='raise'` it raises.  Numbers pass through, booleans become 0/1,
`None`/`NaN` stay missing. -/
def to_numeric (mode : NumErrMode) (parse : ParseFn) (c : Cell) :
    Except String (Option ℚ) :=
  match cellOf c with
  | none => .ok none
  | some .null => .ok none
  | some (.num q) => .ok (some q)
  | some (.bool b) => .ok (some (if b then 1 else 0))
  | some (.str s) =>
    match parse s with
    | some q => .ok (some q)
    | none =>
      match mode with
      | .coerceE => .ok none
      | .raiseE => .error "Unable to parse string"

/-- The cell value the pipeline actually uses: `to_numeric` in
`errors='coerce'` mode, with a raised error defensively mapped to
missing (the coerce mode in fact never errors — see the C4 theorem). -/
def toNumericCell (parse : ParseFn) (c : Cell) : Option ℚ :=
  match to_numeric .coerceE parse c with
  | .ok r => r
  | .error _ => none

/-- One raw record after projection onto the allow-list of
`columns_to_keep` (`main.py` lines 146-161).  Each field is a `Cell`. -/
structure RawRecord where
  sitename : Cell := none
  county : Cell := none
  aqi : Cell := none
  pm25 : Cell := none
  pm10 : Cell := none
  o3 : Cell := none
  no2 : Cell := none
  so2 : Cell := none
  co : Cell := none
  publishtime : Cell := none
deriving DecidableEq

/-- Which allow-listed columns exist in the DataFrame: a column exists
iff some record carries the key (`available_columns`, line 160). -/
structure Cols where
  sitename : Bool
  county : Bool
  aqi : Bool
  pm25 : Bool
  pm10 : Bool
  o3 : Bool
  no2 : Bool
  so2 : Bool
  co : Bool
  publishtime : Bool
deriving DecidableEq

/-- Does some record carry the given field (is the column present)? -/
def hasF (records : List RawRecord) (f : RawRecord → Cell) : Bool :=
  records.any (fun r => (f r).isSome)

/-- The column set of `pd.DataFrame(records)` after projection. -/
def mkCols (records : List RawRecord) : Cols :=
  { sitename := hasF records (fun r => r.sitename)
    county := hasF records (fun r => r.county)
    aqi := hasF records (fun r => r.aqi)
    pm25 := hasF records (fun r => r.pm25)
    pm10 := hasF records (fun r => r.pm10)
    o3 := hasF records (fun r => r.o3)
    no2 := hasF records (fun r => r.no2)
    so2 := hasF records (fun r => r.so2)
    co := hasF records (fun r => r.co)
    publishtime := hasF records (fun r => r.publishtime) }

/-- Source `main.py` lines 164-165:
`self.station_coordinates.get(x, [None, None])` on the sitename cell.
A dict lookup with a non-string key (missing value, number, boolean)
simply returns the default. -/
def lookupCoords (c : Cell) : Option ℚ × Option ℚ :=
  match cellOf c with
  | some (.str s) =>
    match station_coordinates.find? (fun e => e.1 == s) with
    | some e => (some e.2.1, some e.2.2)
    | none => (none, none)
  | _ => (none, none)

/-- One enriched row of the processed DataFrame (a `StationReading`).
`publishtime` has been renamed to `datacreationdate` (line 178). -/
structure Row where
  sitename : Cell
  county : Cell
  aqi : Option ℚ
  pm25 : Option ℚ
  pm10 : Option ℚ
  o3 : Option ℚ
  no2 : Option ℚ
  so2 : Option ℚ
  co : Option ℚ
  datacreationdate : Cell
  latitude : Option ℚ
  longitude : Option ℚ
  distance_to_taipei : Option ℚ
deriving DecidableEq

/-- The processed DataFrame: its column set plus its rows. -/
structure Df where
  cols : Cols
  rows : List Row
deriving DecidableEq

/-- Lines 163-171 applied to one record: attach coordinates from the
table, coerce the numeric columns (`to_numeric` is the identity on the
just-created latitude/longitude columns, which hold floats or `None`).
The distance column is not yet attached (the source computes it only
after `dropna`, line 181). -/
def mkPreRow (parse : ParseFn) (r : RawRecord) : Row :=
  { sitename := cellOf r.sitename
    county := cellOf r.county
    aqi := toNumericCell parse r.aqi
    pm25 := toNumericCell parse r.pm25
    pm10 := toNumericCell parse r.pm10
    o3 := toNumericCell parse r.o3
    no2 := toNumericCell parse r.no2
    so2 := toNumericCell parse r.so2
    co := toNumericCell parse r.co
    datacreationdate := cellOf r.publishtime
    latitude := (lookupCoords r.sitename).1
    longitude := (lookupCoords r.sitename).2
    distance_to_taipei := none }

/-- Lines 181-184: compute `distance_to_taipei` for a surviving row
(its latitude/longitude are non-null after `dropna`; the stored floats
are passed to `calculate_distance_to_taipei`). -/
def addDistance (g : GeoFn) (row : Row) : Row :=
  { row with
    distance_to_taipei :=
      calculate_distance_to_taipei g (row.latitude.getD 0) (row.longitude.getD 0) }

/-- Does the record's sitename resolve in the coordinate table (so the
row survives the `dropna` of line 174)? -/
def resolvable (r : RawRecord) : Bool :=
  (lookupCoords r.sitename).1.isSome && (lookupCoords r.sitename).2.isSome

/-- Source `main.py` lines 142-187, the body of `process_data` on a non-empty
record list: project (already reflected in `RawRecord`), attach
coordinates, coerce numerics, drop rows with unresolved coordinates,
rename the timestamp column, compute distances.  The unguarded
`df['sitename']` access (line 164) raises `KeyError` when no record
carries a sitename key (the column does not exist). -/
def processRecords (g : GeoFn) (parse : ParseFn) (records : List RawRecord) :
    Except PyErr Df :=
  if records.all (fun r => r.sitename.isNone) then .error .keyError
  else
    let pre := records.map (mkPreRow parse)
    let kept := pre.filter (fun r => r.latitude.isSome && r.longitude.isSome)
    .ok { cols := mkCols records, rows := kept.map (addDistance g) }

/-- A JSON value that is a scalar, as a `Scalar`. -/
def jsonToScalar : Json → Option Scalar
  | .null => some .null
  | .bool b => some (.bool b)
  | .num q => some (.num q)
  | .str s => some (.str s)
  | .arr _ => none
  | .obj _ => none

/-- An allow-listed field of a raw JSON object as a `Cell`: absent key →
absent cell; present scalar → present cell; present non-scalar →
outside the modelled domain. -/
def scalarFieldOf (fs : List (String × Json)) (k : String) : Option Cell :=
  match fieldOf fs k with
  | none => some none
  | some j => (jsonToScalar j).map some

/-- Projection of one raw JSON object onto the allow-list (`none` when
an allow-listed value is non-scalar, i.e. outside the modelled domain). -/
def toRecord (fs : List (String × Json)) : Option RawRecord := do
  let sn ← scalarFieldOf fs "sitename"
  let ct ← scalarFieldOf fs "county"
  let aq ← scalarFieldOf fs "aqi"
  let p25 ← scalarFieldOf fs "pm25"
  let p10 ← scalarFieldOf fs "pm10"
  let oz ← scalarFieldOf fs "o3"
  let n2 ← scalarFieldOf fs "no2"
  let s2 ← scalarFieldOf fs "so2"
  let c0 ← scalarFieldOf fs "co"
  let pt ← scalarFieldOf fs "publishtime"
  pure { sitename := sn, county := ct, aqi := aq, pm25 := p25, pm10 := p10,
         o3 := oz, no2 := n2, so2 := s2, co := c0, publishtime := pt }

/-- The fetched data as a record list: a JSON array of objects with
scalar allow-listed fields.  `none` = outside the modelled domain. -/
def toRecords : Json → Option (List RawRecord)
  | .arr xs =>
    xs.mapM (fun j =>
      match j with
      | .obj fs => toRecord fs
      | _ => none)
  | _ => none

/-- Source `main.py` lines 137-187, `process_data`, on `self.data`
(`none` = `self.data is None`).  `if not self.data: return None` is the
Python truthiness test; a truthy value that is not an array of
scalar-valued objects is outside the modelled domain (the real code
raises in `pd.DataFrame` or at a column access on such data). -/
def process_data (g : GeoFn) (parse : ParseFn) (dataO : Option Json) :
    Except PyErr (Option Df) :=
  match dataO with
  | none => .ok none
  | some d =>
    if jFalsy d then .ok none
    else
      match toRecords d with
      | none => .error .unmodeled
      | some records =>
        match processRecords g parse records with
        | .error e => .error e
        | .ok df => .ok (some df)

/-- Network/decode failures of the HTTP request: both exception classes
are caught by `fetch_aqi_data` (lines 130-135). -/
inductive NetErr where
  | request : NetErr
  | jsonDecode : NetErr

/-- Does `s` contain `"records"` as a substring (Python's `'records' in s`)? -/
def strContainsRecords (s : String) : Bool :=
  (s.splitOn "records").length != 1

/-- Source `main.py` lines 101-135, `fetch_aqi_data`, on the outcome of the
HTTP request + JSON parse.  Returns `ok none` for the Python
`return False` (failure signal), `ok (some d)` for `self.data = d;
return True`, and `error` for an uncaught exception: `'records' in
data` raises `TypeError` on a non-container body, and on a string body
it is a substring test, so a string containing `"records"` reaches
`data['records']`, which raises `TypeError` on a string. -/
def fetch_aqi_data (resp : Except NetErr Json) : Except PyErr (Option Json) :=
  match resp with
  | .error _ => .ok none
  | .ok body =>
    match body with
    | .arr xs => .ok (some (.arr xs))
    | .obj fs =>
      match fieldOf fs "records" with
      | some v => .ok (some v)
      | none => .ok none
    | .str s => if strContainsRecords s then .error .typeError else .ok none
    | .null => .error .typeError
    | .num _ => .error .typeError
    | .bool _ => .error .typeError

/-- Fetch then normalize: the enriched output obtained from a given
response body (used to state the two-shapes equivalence). -/
def fetchThenProcess (g : GeoFn) (parse : ParseFn)
    (resp : Except NetErr Json) : Except PyErr (Option Df) :=
  match fetch_aqi_data resp with
  | .error e => .error e
  | .ok none => .ok none
  | .ok (some d) => process_data g parse (some d)

/-- One circular station marker of the rendered map
(`main.py` lines 235-261). -/
structure Marker where
  location : Option ℚ × Option ℚ
  radius : ℚ
  fillColor : String
  level : String
  popupAqi : ℚ
  popupDistance : Option ℚ
  popupSitename : Cell
  popupCounty : Cell
deriving DecidableEq

/-- The marker built for one row: a null AQI is replaced by 0 for the
displayed value, the radius and the classifier calls
(`aqi_value = row['aqi'] if pd.notna(row['aqi']) else 0`, line 236). -/
def markerOfRow (row : Row) : Marker :=
  let aqi_value := row.aqi.getD 0
  { location := (row.latitude, row.longitude)
    radius := 8 + aqi_value / 50
    fillColor := get_aqi_color aqi_value
    level := get_aqi_level aqi_value
    popupAqi := aqi_value
    popupDistance := row.distance_to_taipei
    popupSitename := row.sitename
    popupCounty := row.county }

/-- Column mean with pandas `skipna` semantics. -/
def colMean (xs : List (Option ℚ)) : Option ℚ :=
  let vs := xs.filterMap id
  if vs.isEmpty then none else some (vs.sum / (vs.length : ℚ))

/-- The rendered map object: center plus one marker per row (the fixed
reference marker and legend are constants and carry no data). -/
structure FMap where
  center : Option ℚ × Option ℚ
  markers : List Marker
deriving DecidableEq

/-- Source `main.py` lines 217-286, `create_map`: `ok none` for the
`return None` on an empty frame; a `KeyError` when the marker loop
reads `row['aqi']` or `row['county']` and the column does not exist;
otherwise the map object. -/
def create_map (df : Df) : Except PyErr (Option FMap) :=
  if df.rows.isEmpty then .ok none
  else if !df.cols.aqi || !df.cols.county then .error .keyError
  else
    .ok (some
      { center := (colMean (df.rows.map (fun r => r.latitude)),
                   colMean (df.rows.map (fun r => r.longitude)))
        markers := df.rows.map markerOfRow })

/-- Source `main.py` lines 288-303, `save_map`.  The map-is-`None`
check (line 290) comes first and returns `False`.  Then
`os.makedirs` (line 295) runs *outside* the `try`: a filesystem
failure there (`mkdirOk = false`) raises an `OSError` that escapes
`save_map` uncaught.  Only then comes the `try` around
`self.map.save` (`wMap` models its outcome; an exception there is
caught and becomes `False`). -/
def save_map (m : Option FMap) (mkdirOk wMap : Bool) : Except PyErr Bool :=
  match m with
  | none => .ok false
  | some _ => if mkdirOk then .ok wMap else .error .osError

/-- Source `main.py` lines 305-322, `save_data`.  The data-is-`None`
check (line 307) comes first and returns `False`.  Then `os.makedirs`
(line 312) runs *outside* the `try`: a filesystem failure there
(`mkdirOk = false`) raises an `OSError` that escapes `save_data`
uncaught.  Inside the `try`, the `ok` value is the Python return value
(`none` models the implicit `return None` when the processed frame is
`None`) paired with the frame actually written to the CSV (`none` when
nothing was written); `process_data` exceptions and a `to_csv` failure
(`wCsv = false`) are caught and become `False`. -/
def save_data (g : GeoFn) (parse : ParseFn) (dataO : Option Json)
    (mkdirOk wCsv : Bool) : Except PyErr (Option Bool × Option Df) :=
  match dataO with
  | none => .ok (some false, none)
  | some d =>
    if mkdirOk then
      match process_data g parse (some d) with
      | .error _ => .ok (some false, none)
      | .ok none => .ok (none, none)
      | .ok (some df) =>
        if wCsv then .ok (some true, some df) else .ok (some false, none)
    else .error .osError

/-- The outcome of one `run`: the boolean the Python function returns,
plus the outcomes of the two persist attempts (`none` = the persist
stage was never reached). -/
structure RunResult where
  ok : Bool
  mapSaved : Option Bool
  csvSaved : Option (Option Bool)
deriving DecidableEq

/-- Source `main.py` lines 324-350, `run`: fetch, check the signal; process,
check for `None`/empty; render, check for `None`; then call
`save_map()` and then `save_data()` unconditionally (their return
values are not checked) and return `True`.  Exceptions raised by any
stage — including an `OSError` from `os.makedirs` inside either
persister — are not caught here and escape `run`; in particular an
uncaught error in `save_map` prevents `save_data` from ever being
called. -/
def run (g : GeoFn) (parse : ParseFn) (resp : Except NetErr Json)
    (mkMap wMap mkCsv wCsv : Bool) : Except PyErr RunResult :=
  match fetch_aqi_data resp with
  | .error e => .error e
  | .ok none => .ok { ok := false, mapSaved := none, csvSaved := none }
  | .ok (some data) =>
    match process_data g parse (some data) with
    | .error e => .error e
    | .ok none => .ok { ok := false, mapSaved := none, csvSaved := none }
    | .ok (some df) =>
      if df.rows.isEmpty then .ok { ok := false, mapSaved := none, csvSaved := none }
      else
        match create_map df with
        | .error e => .error e
        | .ok none => .ok { ok := false, mapSaved := none, csvSaved := none }
        | .ok (some m) =>
          match save_map (some m) mkMap wMap with
          | .error e => .error e
          | .ok r1 =>
            match save_data g parse (some data) mkCsv wCsv with
            | .error e => .error e
            | .ok r2 =>
              .ok { ok := true, mapSaved := some r1, csvSaved := some r2.1 }

/-- A concrete geodesic oracle (always returns 0 km) used to
instantiate closed statements. -/
def gZero : GeoFn := fun _ _ => .ok 0

/-- A concrete numeric-string grammar that parses nothing, used to
instantiate closed statements. -/
def pZero : ParseFn := fun _ => none

/-- A concrete numeric-string grammar that parses only `"45"`, used to
instantiate closed statements. -/
def p45 : ParseFn := fun s => if s == "45" then some 45 else none

/-- Concrete raw record: 大安 station with AQI string `"45"`. -/
def recDaanAqi : RawRecord :=
  { sitename := some (.str "大安"), aqi := some (.str "45") }

/-- Concrete raw record: a station name absent from the coordinate
table (the spec's unknown-station scenario). -/
def recUnknown : RawRecord :=
  { sitename := some (.str "未知測站"), aqi := some (.str "80") }

/-- Concrete record list: one resolvable and one unresolvable record. -/
def recsPair : List RawRecord := [recDaanAqi, recUnknown]

/-- The enriched frame `processRecords gZero p45 recsPair` produces. -/
def dfPair : Df :=
  { cols := { sitename := true, county := false, aqi := true, pm25 := false,
              pm10 := false, o3 := false, no2 := false, so2 := false,
              co := false, publishtime := false }
    rows := [{ sitename := some (.str "大安"), county := none,
               aqi := some 45, pm25 := none, pm10 := none, o3 := none,
               no2 := none, so2 := none, co := none, datacreationdate := none,
               latitude := some 25.0263, longitude := some 121.5438,
               distance_to_taipei := some (pyRound2 0) }] }

/-- Concrete fetched body: one 大安 record with a present-but-null AQI. -/
def dataNullAqi : Json :=
  .arr [.obj [("sitename", .str "大安"), ("county", .str "臺北市"),
              ("aqi", Json.null)]]

/-- The single enriched row `dataNullAqi` produces: AQI is null, the
coordinates resolve. -/
def rowNullAqi : Row :=
  { sitename := some (.str "大安"), county := some (.str "臺北市"),
    aqi := none, pm25 := none, pm10 := none, o3 := none, no2 := none,
    so2 := none, co := none, datacreationdate := none,
    latitude := some 25.0263, longitude := some 121.5438,
    distance_to_taipei := some (pyRound2 0) }

/-- The enriched frame `dataNullAqi` produces. -/
def dfNullAqi : Df :=
  { cols := { sitename := true, county := true, aqi := true, pm25 := false,
              pm10 := false, o3 := false, no2 := false, so2 := false,
              co := false, publishtime := false }
    rows := [rowNullAqi] }

/-- Concrete raw record carrying only a sitename (no county, no aqi). -/
def recOnlySitename : RawRecord := { sitename := some (.str "大安") }

/-- The enriched frame `[recOnlySitename]` produces: one surviving row
but no `aqi` and no `county` column. -/
def dfOnlySitename : Df :=
  { cols := { sitename := true, county := false, aqi := false, pm25 := false,
              pm10 := false, o3 := false, no2 := false, so2 := false,
              co := false, publishtime := false }
    rows := [{ sitename := some (.str "大安"), county := none,
               aqi := none, pm25 := none, pm10 := none, o3 := none,
               no2 := none, so2 := none, co := none, datacreationdate := none,
               latitude := some 25.0263, longitude := some 121.5438,
               distance_to_taipei := some (pyRound2 0) }] }

/-- The column set produced by `[recUnknown]` (sitename and aqi
columns exist; every row is dropped). -/
def colsUnknown : Cols :=
  { sitename := true, county := false, aqi := true, pm25 := false,
    pm10 := false, o3 := false, no2 := false, so2 := false,
    co := false, publishtime := false }

/-- A concrete non-empty frame whose `aqi` and `county` columns exist
(all cell values null), used to instantiate the renderer theorem. -/
def dfAllCols : Df :=
  { cols := { sitename := true, county := true, aqi := true, pm25 := true,
              pm10 := true, o3 := true, no2 := true, so2 := true,
              co := true, publishtime := true }
    rows := [{ sitename := none, county := none, aqi := none, pm25 := none,
               pm10 := none, o3 := none, no2 := none, so2 := none,
               co := none, datacreationdate := none, latitude := none,
               longitude := none, distance_to_taipei := none }] }

/-- Concrete response: one fully-populated 大安 record, bare-array shape. -/
def respFull : Except NetErr Json :=
  .ok (.arr [.obj [("sitename", .str "大安"), ("county", .str "臺北市"),
                   ("aqi", .str "45")]])

/-! ## Helper lemmas -/

/-- The classifier band as a direct case split on the thresholds. -/
theorem bandOf_eq (v : ℚ) :
    bandOf v = if v ≤ 50 then AQIBandT.good
               else if v ≤ 100 then AQIBandT.moderate
               else AQIBandT.unhealthy := by
  unfold bandOf get_aqi_color
  by_cases h1 : v ≤ 50
  · simp [h1]
  · by_cases h2 : v ≤ 100 <;> simp [h1, h2]

/-- Filtering a mapped list is mapping the filtered list. -/
theorem filter_comm_map {α β : Type} (f : α → β) (p : β → Bool) (l : List α) :
    (l.map f).filter p = (l.filter (fun a => p (f a))).map f := by
  induction l with
  | nil => rfl
  | cons a t ih =>
    by_cases h : p (f a) <;> simp [List.filter, h, ih]

/-- In coerce mode, `to_numeric` always returns normally. -/
theorem to_numeric_coerce_ok (parse : ParseFn) (c : Cell) :
    ∃ r, to_numeric .coerceE parse c = .ok r := by
  unfold to_numeric
  cases hc : cellOf c with
  | none => exact ⟨none, rfl⟩
  | some sc =>
    cases sc with
    | null => exact ⟨none, rfl⟩
    | bool b => exact ⟨some (if b then 1 else 0), rfl⟩
    | num q => exact ⟨some q, rfl⟩
    | str s =>
      cases hp : parse s with
      | none => exact ⟨none, by simp [hp]⟩
      | some q => exact ⟨some q, by simp [hp]⟩

/-! ## Claim theorems -/

/-- Claim C2: the AQI classifier is a pure function partitioning the
numeric domain exactly at 50 and 100 — `v ≤ 50` yields the Good band
(color `#00E400`), `50 < v ≤ 100` the Moderate band (`#FFFF00`),
`v > 100` the Unhealthy band (`#FF0000`); at the boundary,
`bandOf 50 = good`, `bandOf 51 = moderate`, `bandOf 100 = moderate`,
`bandOf 101 = unhealthy`; and the band is monotone in the value. -/
theorem C2_classifier_partition :
    (∀ v : ℚ, v ≤ 50 →
      get_aqi_color v = "#00E400" ∧ get_aqi_level v = "良好" ∧
        bandOf v = .good) ∧
    (∀ v : ℚ, 50 < v → v ≤ 100 →
      get_aqi_color v = "#FFFF00" ∧ get_aqi_level v = "中等" ∧
        bandOf v = .moderate) ∧
    (∀ v : ℚ, 100 < v →
      get_aqi_color v = "#FF0000" ∧ get_aqi_level v = "不健康" ∧
        bandOf v = .unhealthy) ∧
    (bandOf 50 = .good ∧ bandOf 51 = .moderate ∧ bandOf 100 = .moderate ∧
      bandOf 101 = .unhealthy) ∧
    (∀ v w : ℚ, v ≤ w → bandIdx (bandOf v) ≤ bandIdx (bandOf w)) := by
  refine ⟨?_, ?_, ?_, ?_, ?_⟩
  · intro v h
    have h' : v ≤ 100 := by linarith
    refine ⟨?_, ?_, ?_⟩ <;> simp [get_aqi_color, get_aqi_level, bandOf, h, h']
  · intro v h1 h2
    have h1' : ¬ v ≤ 50 := by linarith
    refine ⟨?_, ?_, ?_⟩ <;>
      simp [get_aqi_color, get_aqi_level, bandOf, h1', h2]
  · intro v h
    have h1 : ¬ v ≤ 50 := by linarith
    have h2 : ¬ v ≤ 100 := by linarith
    refine ⟨?_, ?_, ?_⟩ <;>
      simp [get_aqi_color, get_aqi_level, bandOf, h1, h2]
  · refine ⟨?_, ?_, ?_, ?_⟩ <;> rw [bandOf_eq] <;> norm_num
  · intro v w hvw
    rw [bandOf_eq, bandOf_eq]
    rcases le_or_lt v 50 with hv | hv
    · simp only [hv, if_pos]
      exact Nat.zero_le _
    · have hv' : ¬ v ≤ 50 := not_le.mpr hv
      have hw' : ¬ w ≤ 50 := not_le.mpr (lt_of_lt_of_le hv hvw)
      rcases le_or_lt v 100 with hv2 | hv2
      · simp only [hv', hw', if_neg, not_false_iff, hv2, if_pos]
        by_cases hw2 : w ≤ 100 <;> simp [hw2, bandIdx]
      · have hv2' : ¬ v ≤ 100 := not_le.mpr hv2
        have hw2' : ¬ w ≤ 100 := not_le.mpr (lt_of_lt_of_le hv2 hvw)
        simp [hv', hw', hv2', hw2']

/-- Witness for C2: the classifier evaluated at concrete inputs in each
band, with every hypothesis discharged. -/
theorem C2_classifier_partition_witness :
    get_aqi_color 40 = "#00E400" ∧ get_aqi_color 77 = "#FFFF00" ∧
    get_aqi_color 150 = "#FF0000" ∧
    bandIdx (bandOf 40) ≤ bandIdx (bandOf 150) :=
  ⟨(C2_classifier_partition.1 40 (by norm_num)).1,
   (C2_classifier_partition.2.1 77 (by norm_num) (by norm_num)).1,
   (C2_classifier_partition.2.2.1 150 (by norm_num)).1,
   C2_classifier_partition.2.2.2.2 40 150 (by norm_num)⟩

/-- Claim C9: for every AQI value the color function and the level
function classify into the same band — the color is `#00E400` iff the
label is 良好, `#FFFF00` iff 中等, `#FF0000` iff 不健康. -/
theorem C9_color_level_agree (v : ℚ) :
    (get_aqi_color v = "#00E400" ↔ get_aqi_level v = "良好") ∧
    (get_aqi_color v = "#FFFF00" ↔ get_aqi_level v = "中等") ∧
    (get_aqi_color v = "#FF0000" ↔ get_aqi_level v = "不健康") := by
  unfold get_aqi_color get_aqi_level
  by_cases h1 : v ≤ 50
  · simp [h1]
  · by_cases h2 : v ≤ 100 <;> simp [h1, h2]

/-- Claim C10: the distance computation is total — for every pair of
inputs it either returns the geodesic distance to the fixed Taipei
Station reference point rounded to 2 decimal places, or returns null
when the underlying computation raises; it never raises itself. -/
theorem C10_distance_total (g : GeoFn) (lat lon : ℚ) :
    (∃ d, g (lat, lon) taipei_station = .ok d ∧
      calculate_distance_to_taipei g lat lon = some (pyRound2 d)) ∨
    ((∃ e, g (lat, lon) taipei_station = .error e) ∧
      calculate_distance_to_taipei g lat lon = none) := by
  unfold calculate_distance_to_taipei
  cases h : g (lat, lon) taipei_station with
  | ok d => exact .inl ⟨d, rfl, rfl⟩
  | error e => exact .inr ⟨⟨e, rfl⟩, rfl⟩

/-- Claim C4: numeric coercion during normalization is total — in the
`errors='coerce'` mode the pipeline uses, `to_numeric` never raises
(always returns `ok`, with the pipeline's cell value), and a string
value that does not parse as a number becomes null. -/
theorem C4_coercion_total (parse : ParseFn) (c : Cell) :
    to_numeric .coerceE parse c = .ok (toNumericCell parse c) ∧
    (∀ s, c = some (.str s) → parse s = none →
      toNumericCell parse c = none) := by
  obtain ⟨r, hr⟩ := to_numeric_coerce_ok parse c
  have hcell : toNumericCell parse c = r := by
    unfold toNumericCell
    rw [hr]
  constructor
  · rw [hr, hcell]
  · intro s hc hp
    subst hc
    have h1 : to_numeric .coerceE parse (some (Scalar.str s)) =
        (match parse s with
         | some q => Except.ok (some q)
         | none => Except.ok none) := rfl
    unfold toNumericCell
    rw [h1, hp]

/-- Witness for C4: coercion of the unparseable string `"abc"` returns
normally with a null value. -/
theorem C4_coercion_total_witness :
    to_numeric .coerceE pZero (some (.str "abc")) = .ok none ∧
    toNumericCell pZero (some (.str "abc")) = none := by
  have h := C4_coercion_total pZero (some (.str "abc"))
  have h2 := h.2 "abc" rfl rfl
  exact ⟨by rw [h.1, h2], h2⟩

/-- A record resolves exactly when its sitename cell is a string that
is a key of the static coordinate table. -/
theorem resolvable_iff (r : RawRecord) :
    resolvable r = true ↔
      ∃ s la lo, cellOf r.sitename = some (.str s) ∧
        (s, la, lo) ∈ station_coordinates := by
  unfold resolvable lookupCoords
  cases hc : cellOf r.sitename with
  | none => simp
  | some sc =>
    cases sc with
    | null => simp
    | bool b => simp
    | num q => simp
    | str s =>
      cases hf : station_coordinates.find? (fun e => e.1 == s) with
      | none =>
        simp only [hf]
        refine iff_of_false (by simp) ?_
        rintro ⟨s', la, lo, hs, hmem⟩
        rw [Option.some.injEq, Scalar.str.injEq] at hs
        subst hs
        have hnone := List.find?_eq_none.mp hf (s, la, lo) hmem
        simp at hnone
      | some e =>
        simp only [hf]
        obtain ⟨e1, e2, e3⟩ := e
        have hp : e1 = s := by simpa using List.find?_some hf
        subst hp
        refine iff_of_true (by simp) ?_
        exact ⟨e1, e2, e3, rfl, List.mem_of_find?_eq_some hf⟩

/-- The kept-and-enriched rows are the resolvable records, enriched,
in input order. -/
theorem kept_eq (g : GeoFn) (parse : ParseFn) (records : List RawRecord) :
    ((records.map (mkPreRow parse)).filter
        (fun r => r.latitude.isSome && r.longitude.isSome)).map
          (addDistance g) =
      (records.filter resolvable).map
        (fun r => addDistance g (mkPreRow parse r)) := by
  induction records with
  | nil => rfl
  | cons a t ih =>
    have hp : ((mkPreRow parse a).latitude.isSome &&
        (mkPreRow parse a).longitude.isSome) = resolvable a := rfl
    simp only [List.map_cons, List.filter_cons, hp]
    cases h : resolvable a
    · simpa [h] using ih
    · simpa [h] using ih

/-- Claim C3: every record whose site name is not a key of the static
coordinate table is excluded from the enriched output; the output is
exactly the resolvable records, enriched, in input order; and every
surviving row has non-null latitude and longitude. -/
theorem C3_enrichment_filter (g : GeoFn) (parse : ParseFn)
    (records : List RawRecord) (df : Df)
    (h : processRecords g parse records = .ok df) :
    df.rows = (records.filter resolvable).map
      (fun r => addDistance g (mkPreRow parse r)) ∧
    (∀ row ∈ df.rows, row.latitude.isSome ∧ row.longitude.isSome) ∧
    (∀ r : RawRecord, resolvable r = true ↔
      ∃ s la lo, cellOf r.sitename = some (.str s) ∧
        (s, la, lo) ∈ station_coordinates) := by
  unfold processRecords at h
  by_cases hall : records.all (fun r => r.sitename.isNone)
  · rw [if_pos hall] at h
    exact absurd h (fun hh => Except.noConfusion hh)
  · rw [if_neg hall] at h
    injection h with hdf
    subst hdf
    refine ⟨kept_eq g parse records, ?_, resolvable_iff⟩
    intro row hrow
    rw [kept_eq g parse records] at hrow
    simp only [List.mem_map, List.mem_filter] at hrow
    obtain ⟨r, ⟨hr, hres⟩, hrow⟩ := hrow
    subst hrow
    have hlat : (addDistance g (mkPreRow parse r)).latitude =
        (lookupCoords r.sitename).1 := rfl
    have hlon : (addDistance g (mkPreRow parse r)).longitude =
        (lookupCoords r.sitename).2 := rfl
    rw [hlat, hlon]
    unfold resolvable at hres
    exact ⟨(Bool.and_eq_true _ _ |>.mp hres).1,
           (Bool.and_eq_true _ _ |>.mp hres).2⟩

/-- Witness for C3: the enrichment of a pair of records (one
resolvable, one unknown) equals the filtered-and-mapped input. -/
theorem C3_enrichment_filter_witness :
    dfPair.rows = (recsPair.filter resolvable).map
      (fun r => addDistance gZero (mkPreRow p45 r)) :=
  (C3_enrichment_filter gZero p45 recsPair dfPair (by rfl)).1

/-- Counterexample for C5: a bare JSON `null` body is neither of the
two accepted shapes, yet the fetcher does not produce the failure
signal (`ok none`) for it — `'records' in data` raises a `TypeError`
that escapes, refuting "any other JSON shape produces a failure
signal". -/
theorem C5_counterexample :
    fetch_aqi_data (.ok Json.null) = .error .typeError ∧
    fetch_aqi_data (.ok Json.null) ≠ .ok none :=
  ⟨rfl, fun h => Except.noConfusion h⟩

/-- Claim C5 (amended): a bare-array body and an object body whose
`records` key holds the same array are both accepted, yield the same
internal record list, and hence identical enriched output; an object
body without a `records` key produces the failure signal.  (As stated
the claim fails for non-container bodies: a bare `null`, number,
boolean, or a string containing `"records"` raises a `TypeError`
instead of producing a failure signal — see the counterexample.) -/
theorem C5_fetch_shapes :
    (∀ L : List Json,
      fetch_aqi_data (.ok (.arr L)) = .ok (some (.arr L)) ∧
      fetch_aqi_data (.ok (.obj [("records", .arr L)])) = .ok (some (.arr L))) ∧
    (∀ (g : GeoFn) (parse : ParseFn) (L : List Json),
      fetchThenProcess g parse (.ok (.arr L)) =
        fetchThenProcess g parse (.ok (.obj [("records", .arr L)]))) ∧
    (∀ fs, fieldOf fs "records" = none →
      fetch_aqi_data (.ok (.obj fs)) = .ok none) := by
  refine ⟨fun L => ⟨rfl, rfl⟩, fun g parse L => rfl, fun fs h => ?_⟩
  unfold fetch_aqi_data
  simp only [h]

/-- Witness for C5: an object without a `records` key produces the
failure signal. -/
theorem C5_fetch_shapes_witness :
    fetch_aqi_data (.ok (.obj [("foo", Json.num 1)])) = .ok none :=
  C5_fetch_shapes.2.2 [("foo", Json.num 1)] rfl

/-- Claim C6: for every enriched record whose AQI is null, the renderer
treats the AQI as 0 for marker sizing and coloring (radius `8 + 0/50`,
the color and level of 0), while the frame persisted to the CSV (on a
save whose directory creation and write succeed) is exactly the
enriched frame, so the record's AQI stays null in the written data. -/
theorem C6_null_aqi_render (g : GeoFn) (parse : ParseFn)
    (dataO : Option Json) (df : Df) (row : Row)
    (hp : process_data g parse dataO = .ok (some df))
    (hrow : row ∈ df.rows) (haqi : row.aqi = none) :
    (markerOfRow row).radius = 8 ∧
    (markerOfRow row).fillColor = get_aqi_color 0 ∧
    (markerOfRow row).level = get_aqi_level 0 ∧
    markerOfRow row = markerOfRow { row with aqi := some 0 } ∧
    (∀ m, create_map df = .ok (some m) → markerOfRow row ∈ m.markers) ∧
    save_data g parse dataO true true = .ok (some true, some df) := by
  have hv : row.aqi.getD 0 = 0 := by rw [haqi]; rfl
  refine ⟨?_, ?_, ?_, ?_, ?_, ?_⟩
  · show 8 + row.aqi.getD 0 / 50 = 8
    rw [hv]; norm_num
  · show get_aqi_color (row.aqi.getD 0) = get_aqi_color 0
    rw [hv]
  · show get_aqi_level (row.aqi.getD 0) = get_aqi_level 0
    rw [hv]
  · simp [markerOfRow, haqi]
  · intro m hm
    unfold create_map at hm
    by_cases he : df.rows.isEmpty
    · rw [if_pos he] at hm
      injection hm with hm2
      exact Option.noConfusion hm2
    · rw [if_neg he] at hm
      by_cases hcols : (!df.cols.aqi || !df.cols.county) = true
      · rw [if_pos hcols] at hm
        exact absurd hm (fun hh => Except.noConfusion hh)
      · rw [if_neg hcols] at hm
        injection hm with hm
        injection hm with hm
        have hmk : m.markers = df.rows.map markerOfRow := by rw [← hm]
        rw [hmk]
        exact List.mem_map_of_mem markerOfRow hrow
  · rcases dataO with _ | d
    · exact absurd hp (fun hh => by
        unfold process_data at hh
        injection hh with hh
        exact Option.noConfusion hh)
    · have hsd : save_data g parse (some d) true true =
          (match process_data g parse (some d) with
           | .error _ => Except.ok (some false, none)
           | .ok none => .ok (none, none)
           | .ok (some df') => if true = true then .ok (some true, some df')
                               else .ok (some false, none)) := rfl
      rw [hsd, hp]
      rfl

/-- Witness for C6: a concrete record with a present-but-null AQI is
rendered with radius 8 and persisted with its AQI still null. -/
theorem C6_null_aqi_render_witness :
    (markerOfRow rowNullAqi).radius = 8 ∧
    save_data gZero pZero (some dataNullAqi) true true =
      .ok (some true, some dfNullAqi) := by
  have h := C6_null_aqi_render gZero pZero (some dataNullAqi) dfNullAqi
    rowNullAqi (by rfl) (List.mem_singleton_self rowNullAqi) rfl
  exact ⟨h.1, h.2.2.2.2.2⟩

/-- Counterexample for C7: a non-empty enriched frame lacking the `aqi`
and `county` columns (one record carrying only a sitename) makes the
renderer raise a `KeyError` — it produces no map although the input
sequence is non-empty, refuting "fails and produces no map exactly
when the enriched input sequence is empty". -/
theorem C7_counterexample :
    processRecords gZero pZero [recOnlySitename] = .ok dfOnlySitename ∧
    dfOnlySitename.rows ≠ [] ∧
    create_map dfOnlySitename = .error .keyError ∧
    create_map dfOnlySitename ≠ .ok none ∧
    (∀ m, create_map dfOnlySitename ≠ .ok (some m)) := by
  have hc : create_map dfOnlySitename = .error .keyError := rfl
  refine ⟨rfl, ?_, hc, ?_, ?_⟩
  · intro h
    exact List.noConfusion h
  · intro h
    rw [hc] at h
    exact Except.noConfusion h
  · intro m h
    rw [hc] at h
    exact Except.noConfusion h

/-- Claim C7 (amended): the renderer returns its failure signal
(`None`) exactly when the enriched input sequence is empty, and on a
non-empty input whose `aqi` and `county` columns exist it produces a
map; in particular, for the unknown-station input the enriched output
is an empty sequence and the renderer reports failure.  (As stated the
claim fails when those columns are missing: the renderer then raises
instead — see the counterexample.) -/
theorem C7_renderer_empty :
    (∀ df : Df, create_map df = .ok none ↔ df.rows = []) ∧
    (∀ df : Df, df.rows ≠ [] → df.cols.aqi = true → df.cols.county = true →
      ∃ m, create_map df = .ok (some m)) ∧
    (∀ (g : GeoFn) (parse : ParseFn),
      processRecords g parse [recUnknown] =
        .ok { cols := colsUnknown, rows := [] } ∧
      create_map { cols := colsUnknown, rows := [] } = .ok none) := by
  refine ⟨?_, ?_, fun g parse => ⟨rfl, rfl⟩⟩
  · intro df
    unfold create_map
    by_cases he : df.rows.isEmpty
    · rw [if_pos he]
      rw [List.isEmpty_iff] at he
      simp [he]
    · rw [if_neg he]
      refine iff_of_false ?_ ?_
      · by_cases hcols : (!df.cols.aqi || !df.cols.county) = true
        · rw [if_pos hcols]
          exact fun h => Except.noConfusion h
        · rw [if_neg hcols]
          intro h
          injection h with h2
          exact Option.noConfusion h2
      · intro h
        rw [h] at he
        exact he rfl
  · intro df hne ha hc
    have he : df.rows.isEmpty = false := by
      cases hrows : df.rows
      · exact absurd hrows hne
      · rfl
    refine ⟨{ center := (colMean (df.rows.map (fun r => r.latitude)),
                         colMean (df.rows.map (fun r => r.longitude))),
              markers := df.rows.map markerOfRow }, ?_⟩
    unfold create_map
    rw [ha, hc, he]
    rfl

/-- Witness for C7: a concrete non-empty frame with `aqi` and `county`
columns present yields a map. -/
theorem C7_renderer_empty_witness :
    ∃ m, create_map dfAllCols = .ok (some m) :=
  C7_renderer_empty.2.1 dfAllCols (fun h => List.noConfusion h) rfl rfl

/-- Counterexample for C8: the persister writes are not independent on
every run that reaches the persist stage.  `os.makedirs` sits outside
the `try` in `save_map` (`main.py` line 295), so on a pipeline input
that does reach the persist stage (first conjunct), a
directory-creation failure during the map save raises an `OSError`
that escapes `run`, and the CSV write is never attempted — the
outcome is the same uncaught error whatever the CSV-side directory
and write oracles say (remaining conjuncts). -/
theorem C8_counterexample :
    run gZero p45 respFull true true true true =
      .ok { ok := true, mapSaved := some true, csvSaved := some (some true) } ∧
    run gZero p45 respFull false true true true = .error .osError ∧
    run gZero p45 respFull false true true false = .error .osError ∧
    run gZero p45 respFull false true false false = .error .osError :=
  ⟨by rfl, by rfl, by rfl, by rfl⟩

/-- Claim C8 (amended): a failure of an artifact-write call inside
either persister's `try` block (`self.map.save`, `df.to_csv`) is
caught and reported, does not prevent the attempt to write the other
artifact, and leaves `run` returning `True`: when both directory
creations succeed, the CSV outcome is independent of the map-write
outcome and vice versa.  But the `os.makedirs` calls sit outside the
`try` blocks, so on a run that reaches the persist stage a
directory-creation failure in `save_map` raises an uncaught `OSError`
out of `run` and the CSV write is never attempted (the outcome does
not depend on any CSV-side oracle); likewise a directory-creation
failure in `save_data` raises after the map attempt. -/
theorem C8_persist_independent (g : GeoFn) (parse : ParseFn)
    (resp : Except NetErr Json) (wMap wMap' wCsv wCsv' : Bool)
    (r r' : RunResult)
    (h : run g parse resp true wMap true wCsv = .ok r)
    (h' : run g parse resp true wMap' true wCsv' = .ok r') :
    r.ok = r'.ok ∧
    (r.mapSaved.isSome ↔ r.csvSaved.isSome) ∧
    (wCsv = wCsv' → r.csvSaved = r'.csvSaved) ∧
    (wMap = wMap' → r.mapSaved = r'.mapSaved) ∧
    (r.mapSaved.isSome → ∀ wMap₂ mkCsv₂ wCsv₂,
      run g parse resp false wMap₂ mkCsv₂ wCsv₂ = .error .osError) ∧
    (r.mapSaved.isSome → ∀ wMap₂ wCsv₂,
      run g parse resp true wMap₂ false wCsv₂ = .error .osError) := by
  unfold run at h h'
  cases hf : fetch_aqi_data resp with
  | error e =>
    simp only [hf] at h
    exact Except.noConfusion h
  | ok o =>
    cases o with
    | none =>
      simp only [hf] at h h'
      injection h with h1
      injection h' with h1'
      subst h1
      subst h1'
      simp
    | some d =>
      simp only [hf] at h h'
      cases hp : process_data g parse (some d) with
      | error e =>
        simp only [hp] at h
        exact Except.noConfusion h
      | ok odf =>
        cases odf with
        | none =>
          simp only [hp] at h h'
          injection h with h1
          injection h' with h1'
          subst h1
          subst h1'
          simp
        | some df =>
          simp only [hp] at h h'
          cases he : df.rows.isEmpty with
          | true =>
            simp [he] at h h'
            subst h
            subst h'
            simp
          | false =>
            simp [he] at h h'
            cases hm : create_map df with
            | error e =>
              simp only [hm] at h
              exact Except.noConfusion h
            | ok om =>
              cases om with
              | none =>
                simp only [hm] at h h'
                injection h with h1
                injection h' with h1'
                subst h1
                subst h1'
                simp
              | some m =>
                simp only [hm] at h h'
                cases wCsv <;> cases wCsv'
                all_goals
                  simp only [save_map, save_data, hp, reduceIte] at h h'
                  injection h with h1
                  injection h' with h1'
                  subst h1
                  subst h1'
                  refine ⟨rfl, by simp, ?_, ?_, ?_, ?_⟩
                  · intro hw
                    simp at hw ⊢
                  · intro hw
                    subst hw
                    rfl
                  · intro hok wMap₂ mkCsv₂ wCsv₂
                    unfold run
                    simp [hf, hp, he, hm, save_map]
                  · intro hok wMap₂ wCsv₂
                    unfold run
                    simp [hf, hp, he, hm, save_map, save_data]

/-- Witness for C8: a concrete full-pipeline run that reaches the
persist stage; instantiating the amended theorem there shows a
map-side directory-creation failure makes `run` raise with the CSV
write never attempted. -/
theorem C8_persist_independent_witness :
    run gZero p45 respFull false false true true = .error .osError :=
  (C8_persist_independent gZero p45 respFull true true true true
    { ok := true, mapSaved := some true, csvSaved := some (some true) }
    { ok := true, mapSaved := some true, csvSaved := some (some true) }
    (by rfl) (by rfl)).2.2.2.2.1 (by rfl) false true true

/-- Claim C1 (code-bug exhibit): contrary to the spec, a data-quality
issue is not always recovered locally — for a fetched body whose
records lack a sitename key entirely, the unguarded `df['sitename']`
access in `process_data` raises a `KeyError` that escapes the
top-level `run` (no stage signal is ever produced), for every geodesic
oracle, numeric grammar, directory-creation and write outcome. -/
theorem C1_run_keyerror_escapes (g : GeoFn) (parse : ParseFn)
    (mkMap wMap mkCsv wCsv : Bool) :
    run g parse (.ok (.arr [.obj [("aqi", Json.str "80")]]))
      mkMap wMap mkCsv wCsv = .error .keyError := by
  rfl

end AQIMonitor
